import Mathlib

/-!
Shallow embedding of `color_added.py` (a tkinter serial-grid viewer).

The program reads values from a serial port on a worker thread
(`SerialReader.run`), publishes tagged messages through a queue, and a UI
poll loop (`GridApp.process_queue`) drains the queue and updates a 20x10
grid of colored cells (`GridApp.set_cell`).

Modelling choices:
* Python strings are Lean `String`s; `int(s)` is modelled by `pyInt`
  (strip ASCII whitespace, optional sign, ASCII digits with single
  underscores allowed between digits; anything else raises `ValueError`,
  modelled as `none`).
* The tkinter labels are a function `Nat → Nat → Cell` (row, column);
  `config(text=..., bg=...)` is a pointwise functional update.
* The worker thread body `SerialReader.run` is a function of the script of
  results the underlying serial calls return (`ReadResult`): data bytes, a
  `serial.SerialException`, or some other exception.  The read loop
  `while not self._stop.is_set()` terminates when the script is exhausted,
  which models the stop event having been observed at the loop head.
* `GridApp.process_queue` is given the list of messages drained from the
  queue in one poll cycle.
-/

/-! ### Configuration constants (source lines 14-19) -/

def ROWS : Nat := 20

def COLS : Nat := 10

def TOTAL_CELLS : Nat := ROWS * COLS

/-- `TEXT_MODE = False` in the shipped configuration (source line 19). -/
def TEXT_MODE : Bool := false

def DEFAULT_PORT : String := "COM8"

def DEFAULT_BAUD : Int := 115200

/-! ### Model of Python `int(str)` and `str.strip()` -/

/-- ASCII whitespace stripped by Python `str.strip()`:
space, tab, newline, carriage return, vertical tab, form feed. -/
def isPySpace (c : Char) : Bool :=
  c.toNat = 32 || c.toNat = 9 || c.toNat = 10 || c.toNat = 13 ||
  c.toNat = 11 || c.toNat = 12

def isAsciiDigit (c : Char) : Bool :=
  48 ≤ c.toNat && c.toNat ≤ 57

def digitVal (c : Char) : Nat := c.toNat - 48

/-- Strip leading and trailing Python whitespace from a character list. -/
def pyStripList (l : List Char) : List Char :=
  ((l.dropWhile isPySpace).reverse.dropWhile isPySpace).reverse

/-- Python `str.strip()` (for the ASCII fragment relevant here). -/
def pyStrip (s : String) : String :=
  String.mk (pyStripList s.data)

/-- Digits of a base-10 integer literal after the first digit; Python allows
a single underscore between two digits (`1_000`), but not leading,
trailing, or doubled underscores. -/
def digitsLoop : Nat → List Char → Option Nat
  | acc, [] => some acc
  | acc, c :: rest =>
    if isAsciiDigit c then digitsLoop (acc * 10 + digitVal c) rest
    else if c = '_' then
      match rest with
      | [] => none
      | d :: rest2 =>
        if isAsciiDigit d then digitsLoop (acc * 10 + digitVal d) rest2
        else none
    else none

/-- A nonempty run of digits (with internal underscores), or failure. -/
def parseUnsigned : List Char → Option Nat
  | [] => none
  | c :: rest => if isAsciiDigit c then digitsLoop (digitVal c) rest else none

/-- Model of Python `int(s)`: `some v` when `int` succeeds with value `v`,
`none` when it raises `ValueError`. -/
def pyInt (s : String) : Option Int :=
  match pyStripList s.data with
  | [] => none
  | c :: rest =>
    if c = '+' then (parseUnsigned rest).map (fun n => (n : Int))
    else if c = '-' then (parseUnsigned rest).map (fun n => -(n : Int))
    else (parseUnsigned (c :: rest)).map (fun n => (n : Int))

/-! ### Queue messages -/

/-- One tagged message on the queue: a Python pair `(kind, payload)`. -/
structure Msg where
  kind : String
  payload : String
deriving DecidableEq

def valueMsg (s : String) : Msg := ⟨"value", s⟩

def statusMsg (s : String) : Msg := ⟨"__STATUS__", s⟩

def errorMsg (s : String) : Msg := ⟨"__ERROR__", s⟩

/-! ### SerialReader (source lines 25-79) -/

/-- The mutable state of a `SerialReader` object: `_stop` event flag and
the `self.ser` handle (`none` = Python `None`; `some b` = a `Serial`
object whose `is_open` is `b`). -/
structure SerialReader where
  port : String
  baud : Int
  text_mode : Bool
  stopFlag : Bool
  ser : Option Bool
deriving DecidableEq

/-- A fresh reader as built by `SerialReader.__init__` (lines 26-33). -/
def SerialReader.make (port : String) (baud : Int) (tm : Bool) : SerialReader :=
  { port := port, baud := baud, text_mode := tm, stopFlag := false, ser := none }

/-- `SerialReader.stop` (lines 35-41): set the stop event; close `self.ser`
if it exists and is open (exceptions swallowed).  The returned list is what
`stop` itself enqueues on `out_q` — nothing: the body contains no
`out_q.put`. -/
def SerialReader.stop (r : SerialReader) : SerialReader × List Msg :=
  ({ r with
      stopFlag := true,
      ser := match r.ser with
             | some _ => some false
             | none => none },
   [])

/-- What one iteration's underlying serial call returns to the read loop:
data bytes (`readline` in text mode / `read(1)` in raw mode; the empty list
models a timeout), a `serial.SerialException`, or any other exception. -/
inductive ReadResult where
  | bytes (bs : List Nat)
  | serialErr (e : String)
  | otherExc
deriving DecidableEq

def isSerialErr : ReadResult → Bool
  | ReadResult.serialErr _ => true
  | _ => false

/-- Python `bytes.decode("ascii", errors="ignore")`: bytes ≥ 128 dropped. -/
def decodeAsciiIgnore (bs : List Nat) : List Char :=
  (bs.filter (fun b => b < 128)).map (fun b => Char.ofNat b)

/-- The read loop of `SerialReader.run` (lines 51-79).  The script ending
models the stop event being observed at the loop head; exiting the loop
(normally or via `break` on `SerialException`) runs the epilogue that
closes the port and enqueues the final `("__STATUS__", "Disconnected")`. -/
def run_loop (tm : Bool) : List ReadResult → List Msg
  | [] => [statusMsg "Disconnected"]
  | ReadResult.serialErr e :: _ =>
    [errorMsg ("Read error: " ++ e), statusMsg "Disconnected"]
  | ReadResult.otherExc :: rest => run_loop tm rest
  | ReadResult.bytes bs :: rest =>
    if tm then
      if bs = [] then run_loop tm rest
      else
        let s := String.mk (pyStripList (decodeAsciiIgnore bs))
        if s = "" then run_loop tm rest
        else valueMsg s :: run_loop tm rest
    else
      match bs with
      | [] => run_loop tm rest
      | b :: _ => valueMsg (toString b) :: run_loop tm rest

/-- The text of the `Connected:` status message (line 46). -/
def connectedText (r : SerialReader) : String :=
  "Connected: " ++ r.port ++ " @ " ++ toString r.baud ++ " (" ++
    (if r.text_mode then "text" else "raw 8-bit") ++ ")"

/-- Result of a complete execution of `SerialReader.run`: the messages it
enqueued, in order, and the final state of `self.ser`. -/
structure RunResult where
  msgs : List Msg
  ser : Option Bool
deriving DecidableEq

/-- `SerialReader.run` (lines 43-79).  `openResult` is what
`serial.Serial(...)` did: `some e` means it raised `SerialException e`
(then `self.ser` is still `None` and `run` returns at line 49); `none`
means the open succeeded, the `Connected:` status is enqueued and the read
loop runs over the script, with the epilogue closing the port. -/
def SerialReader.run (r : SerialReader) (openResult : Option String)
    (reads : List ReadResult) : RunResult :=
  match openResult with
  | some e => { msgs := [errorMsg ("Open failed: " ++ e)], ser := none }
  | none =>
    { msgs := statusMsg (connectedText r) :: run_loop r.text_mode reads,
      ser := some false }

/-! ### GridApp (source lines 81-223) -/

/-- One grid label: `text` and background color, both tkinter strings. -/
structure Cell where
  text : String
  bg : String
deriving DecidableEq

/-- The GUI-relevant mutable state of a `GridApp` object. -/
structure GridApp where
  labels : Nat → Nat → Cell
  index : Nat
  reader : Option SerialReader
  status_var : String
  last_value : String
  port_var : String
  baud_var : String

/-- The state built by `GridApp.__init__` (lines 82-144): empty white
cells, cursor 0, no reader, status `Idle`, last value an em dash. -/
def GridApp.initial : GridApp :=
  { labels := fun _ _ => { text := "", bg := "white" },
    index := 0,
    reader := none,
    status_var := "Idle",
    last_value := "—",
    port_var := DEFAULT_PORT,
    baud_var := toString DEFAULT_BAUD }

/-- `GridApp.set_cell` (lines 185-201): parse the text as an integer
(`ValueError` → 0), pick the color, write text and background into the
label at `(idx // COLS, idx % COLS)`. -/
def GridApp.set_cell (g : GridApp) (idx : Nat) (text_value : String) : GridApp :=
  let r := idx / COLS
  let c := idx % COLS
  let val : Int := match pyInt text_value with
                   | some v => v
                   | none => 0
  let color : String :=
    if val < 20 then "red"
    else if val < 60 then "yellow"
    else "green"
  { g with
      labels := fun i j =>
        if i = r then
          if j = c then { text := text_value, bg := color }
          else g.labels i j
        else g.labels i j }

/-- The body of the drain loop in `GridApp.process_queue` (lines 206-214),
applied to one dequeued message. -/
def GridApp.handle_message (g : GridApp) (m : Msg) : GridApp :=
  if m.kind = "__ERROR__" then { g with status_var := "Error: " ++ m.payload }
  else if m.kind = "__STATUS__" then { g with status_var := m.payload }
  else if m.kind = "value" then
    let g1 := { g with last_value := m.payload }
    let g2 := GridApp.set_cell g1 g1.index m.payload
    { g2 with index := (g2.index + 1) % TOTAL_CELLS }
  else g

/-- One poll cycle of `GridApp.process_queue` (lines 203-217) given the
messages drained from the queue (in FIFO order) during that cycle. -/
def GridApp.process_queue (g : GridApp) (msgs : List Msg) : GridApp :=
  List.foldl GridApp.handle_message g msgs

/-- `GridApp.disconnect` (lines 175-182): if a reader exists, stop it
(exceptions swallowed), clear the reference and set the status; otherwise
do nothing at all. -/
def GridApp.disconnect (g : GridApp) : GridApp :=
  match g.reader with
  | some _ => { g with reader := none, status_var := "Disconnected" }
  | none => g

/-- `GridApp.connect` (lines 156-173): first tear down any existing reader
via `disconnect`, then validate the baud text and the port text, and only
then create (and start) a fresh `SerialReader`. -/
def GridApp.connect (g : GridApp) : GridApp :=
  let g1 := GridApp.disconnect g
  let port := pyStrip g1.port_var
  match pyInt (pyStrip g1.baud_var) with
  | none => { g1 with status_var := "Invalid baud rate" }
  | some baud =>
    if port = "" then { g1 with status_var := "Select/enter a port" }
    else
      { g1 with
          status_var := "Connecting to " ++ port ++ " @ " ++ toString baud ++ " ...",
          reader := some (SerialReader.make port baud TEXT_MODE) }

/-! ### Auxiliary definitions used by the statements -/

/-- Number of `value` messages in a drained batch. -/
def countValueMsgs (msgs : List Msg) : Nat :=
  (msgs.filter (fun m => m.kind = "value")).length

/-- The `value` messages the read loop emits on an error-free script
(the loop output stripped of its terminal status message). -/
def loopValueMsgs (tm : Bool) : List ReadResult → List Msg
  | [] => []
  | ReadResult.serialErr _ :: _ => []
  | ReadResult.otherExc :: rest => loopValueMsgs tm rest
  | ReadResult.bytes bs :: rest =>
    if tm then
      if bs = [] then loopValueMsgs tm rest
      else
        let s := String.mk (pyStripList (decodeAsciiIgnore bs))
        if s = "" then loopValueMsgs tm rest
        else valueMsg s :: loopValueMsgs tm rest
    else
      match bs with
      | [] => loopValueMsgs tm rest
      | b :: _ => valueMsg (toString b) :: loopValueMsgs tm rest

/-! ### Thread-level model for the reconnect claim

`threading.Thread` aliveness: a thread is alive from `start()` until its
`run` method returns.  `SerialReader.stop` (lines 35-41) only sets the stop
event and closes the port; it never joins the thread, so the worker stays
alive until its own loop observes the event at the loop head (line 51). -/

inductive WPhase where
  | notStarted
  | running
  | terminated
deriving DecidableEq

structure WorkerThread where
  phase : WPhase
  stopFlag : Bool
deriving DecidableEq

def WorkerThread.is_alive (w : WorkerThread) : Bool :=
  w.phase = WPhase.running

/-- The thread-level effect of `GridApp.connect` (lines 156-173) with valid
inputs when a previous worker exists: `disconnect` calls `old.stop()`,
which sets the stop event and returns immediately without joining; then the
new `SerialReader` is constructed and `start()`ed.  The old thread's phase
is untouched because nothing waits for it. -/
def connectWorkers (old new : WorkerThread) : WorkerThread × WorkerThread :=
  ({ old with stopFlag := true }, { new with phase := WPhase.running })

/-- A worker's own asynchronous step: the read loop observes the stop event
at the loop head and the thread terminates. -/
def workerObserveStop (w : WorkerThread) : WorkerThread :=
  if w.stopFlag ∧ w.phase = WPhase.running then { w with phase := WPhase.terminated }
  else w

/-! ### Concrete scenario states -/

/-- A connected app scenario: a worker thread currently running. -/
def oldWorker : WorkerThread := { phase := WPhase.running, stopFlag := false }

/-- The replacement worker before `start()`. -/
def newWorker : WorkerThread := { phase := WPhase.notStarted, stopFlag := false }

/-- A fresh, never-started reader (as right after `__init__`). -/
def readerFresh : SerialReader := SerialReader.make "COM8" 115200 false

/-- A live reader handle as stored by `connect`. -/
def readerLive : SerialReader := SerialReader.make "COM3" 9600 false

/-- Fresh app with the baud field edited to `abc`, after pressing Connect:
the connect attempt aborts on the invalid baud, leaving no reader. -/
def appInvalidBaud : GridApp :=
  GridApp.connect { GridApp.initial with baud_var := "abc" }

/-- A batch of 199 consumed value messages. -/
def msgs199 : List Msg := List.replicate 199 (valueMsg "5")

/-- Concrete app with an unparsable baud field, before pressing Connect. -/
def appNotANumber : GridApp :=
  { GridApp.initial with baud_var := "notanumber" }

/-- Connected app whose baud field has been edited to `abc`. -/
def appBaudAbcConnected : GridApp :=
  { GridApp.initial with baud_var := "abc", reader := some readerLive }

/-- Three error-free raw-mode reads delivering the bytes 5, 25, 65. -/
def goodReads : List ReadResult :=
  [ReadResult.bytes [5], ReadResult.bytes [25], ReadResult.bytes [65]]

/-! ### Helper lemmas -/

theorem set_cell_index (g : GridApp) (i : Nat) (t : String) :
    (GridApp.set_cell g i t).index = g.index := rfl

theorem set_cell_reader (g : GridApp) (i : Nat) (t : String) :
    (GridApp.set_cell g i t).reader = g.reader := rfl

theorem handle_message_error (g : GridApp) (s : String) :
    GridApp.handle_message g (errorMsg s) = { g with status_var := "Error: " ++ s } := rfl

theorem handle_message_status (g : GridApp) (s : String) :
    GridApp.handle_message g (statusMsg s) = { g with status_var := s } := rfl

theorem handle_message_value (g : GridApp) (s : String) :
    GridApp.handle_message g (valueMsg s)
      = { GridApp.set_cell { g with last_value := s } g.index s with
          index := (g.index + 1) % TOTAL_CELLS } := rfl

theorem handle_message_nonvalue (g : GridApp) (m : Msg) (h : m.kind ≠ "value") :
    (GridApp.handle_message g m).labels = g.labels
    ∧ (GridApp.handle_message g m).index = g.index := by
  unfold GridApp.handle_message
  split_ifs <;> simp_all

theorem disconnect_reader_none (g : GridApp) : (GridApp.disconnect g).reader = none := by
  cases hr : g.reader <;> simp [GridApp.disconnect, hr]

theorem disconnect_of_reader_none (g : GridApp) (h : g.reader = none) :
    GridApp.disconnect g = g := by
  simp [GridApp.disconnect, h]

theorem disconnect_baud_var (g : GridApp) : (GridApp.disconnect g).baud_var = g.baud_var := by
  cases hr : g.reader <;> simp [GridApp.disconnect, hr]

theorem disconnect_port_var (g : GridApp) : (GridApp.disconnect g).port_var = g.port_var := by
  cases hr : g.reader <;> simp [GridApp.disconnect, hr]

/-! ### C1: value-to-color classification in set_cell -/

/-- C1: for every integer value `v` parsed from the cell text, `set_cell`
paints the cell red when `v < 20`, yellow when `20 ≤ v < 60`, green when
`v ≥ 60`, and the boundary values 19, 20, 59, 60 classify as red, yellow,
yellow, green respectively. -/
theorem c1_color_classification (g : GridApp) (idx : Nat) (t : String) (v : Int)
    (h : pyInt t = some v) :
    (GridApp.set_cell g idx t).labels (idx / COLS) (idx % COLS)
      = { text := t,
          bg := if v < 20 then "red"
                else if 20 ≤ v ∧ v < 60 then "yellow"
                else "green" }
    ∧ (GridApp.set_cell GridApp.initial 0 "19").labels 0 0 = { text := "19", bg := "red" }
    ∧ (GridApp.set_cell GridApp.initial 0 "20").labels 0 0 = { text := "20", bg := "yellow" }
    ∧ (GridApp.set_cell GridApp.initial 0 "59").labels 0 0 = { text := "59", bg := "yellow" }
    ∧ (GridApp.set_cell GridApp.initial 0 "60").labels 0 0 = { text := "60", bg := "green" } := by
  refine ⟨?_, by decide, by decide, by decide, by decide⟩
  simp only [GridApp.set_cell, h]
  split_ifs <;> first | rfl | omega

theorem c1_witness :
    pyInt "42" = some 42
    ∧ (GridApp.set_cell GridApp.initial 3 "42").labels (3 / COLS) (3 % COLS)
      = { text := "42",
          bg := if (42 : Int) < 20 then "red"
                else if 20 ≤ (42 : Int) ∧ (42 : Int) < 60 then "yellow"
                else "green" } :=
  ⟨by decide, (c1_color_classification GridApp.initial 3 "42" 42 (by decide)).1⟩

/-! ### C3: unparsable cell text -/

/-- C3: when the cell text does not parse as an integer, `set_cell` treats
the value as 0 (hence background red) while the cell still displays the
original unparsed text. -/
theorem c3_unparsed_text_red (g : GridApp) (idx : Nat) (t : String)
    (h : pyInt t = none) :
    (GridApp.set_cell g idx t).labels (idx / COLS) (idx % COLS)
      = { text := t, bg := "red" } := by
  simp only [GridApp.set_cell, h]
  split_ifs <;> first | rfl | omega

theorem c3_witness :
    pyInt "abc" = none
    ∧ (GridApp.set_cell GridApp.initial 7 "abc").labels (7 / COLS) (7 % COLS)
      = { text := "abc", bg := "red" } :=
  ⟨by decide, c3_unparsed_text_red GridApp.initial 7 "abc" (by decide)⟩

/-! ### C4: disconnect idempotence -/

/-- C4 (amended): `disconnect` is idempotent, never raises, always leaves
`reader = None`; it sets the status text to `Disconnected` exactly when a
reader existed, and otherwise changes nothing at all (the status keeps its
previous value). -/
theorem c4_disconnect_idempotent (g : GridApp) :
    GridApp.disconnect (GridApp.disconnect g) = GridApp.disconnect g
    ∧ (GridApp.disconnect g).reader = none
    ∧ (GridApp.disconnect g).status_var
        = (if g.reader.isSome then "Disconnected" else g.status_var)
    ∧ (g.reader = none → GridApp.disconnect g = g) := by
  cases hr : g.reader <;> simp [GridApp.disconnect, hr]

/-- C4 (counterexample): in the reachable state where Connect was pressed
with baud text `abc` — so the connect attempt aborted and no reader exists —
pressing Disconnect leaves the status text `Invalid baud rate`, which is not
a disconnected-state text. -/
theorem c4_counterexample :
    appInvalidBaud.reader = none
    ∧ GridApp.disconnect appInvalidBaud = appInvalidBaud
    ∧ (GridApp.disconnect appInvalidBaud).status_var = "Invalid baud rate"
    ∧ (GridApp.disconnect appInvalidBaud).status_var ≠ "Disconnected" := by
  have h : appInvalidBaud.reader = none := by decide
  have h2 := disconnect_of_reader_none appInvalidBaud h
  refine ⟨h, h2, ?_, ?_⟩
  · rw [h2]; decide
  · rw [h2]; decide

/-! ### C8: open failure -/

/-- C8: if opening the serial connection fails, the Reader Task enqueues a
single `Open failed` error message and terminates without entering its read
loop: no value and no status message is ever emitted after the error. -/
theorem c8_open_failure (r : SerialReader) (e : String) (reads : List ReadResult) :
    SerialReader.run r (some e) reads
      = { msgs := [errorMsg ("Open failed: " ++ e)], ser := none }
    ∧ ∀ m ∈ (SerialReader.run r (some e) reads).msgs,
        m.kind = "__ERROR__" ∧ m.payload = "Open failed: " ++ e := by
  refine ⟨rfl, ?_⟩
  intro m hm
  simp only [SerialReader.run, List.mem_singleton] at hm
  subst hm
  exact ⟨rfl, rfl⟩

/-! ### C9: worker aliveness across reconnect -/

/-- C9 (counterexample): pressing Connect while a worker is running leaves
the old worker thread alive (its stop event is set but it has not yet
observed it) at the same time as the newly started worker: two worker
threads are concurrently alive. -/
theorem c9_counterexample :
    (connectWorkers oldWorker newWorker).1.is_alive = true
    ∧ (connectWorkers oldWorker newWorker).2.is_alive = true := by decide

/-- C9 (amended): Connect signals the old worker to stop (its stop event is
set) before the new worker starts, but it does not join the old thread, so
the old worker keeps its phase — it terminates only when its own loop later
observes the stop event. -/
theorem c9_stop_signalled_not_joined (old new : WorkerThread) :
    (connectWorkers old new).1.stopFlag = true
    ∧ (connectWorkers old new).2.phase = WPhase.running
    ∧ (connectWorkers old new).1.phase = old.phase
    ∧ workerObserveStop (connectWorkers old new).1
        = { phase := if old.phase = WPhase.running then WPhase.terminated else old.phase,
            stopFlag := true } := by
  obtain ⟨ph, fl⟩ := old
  cases ph <;> simp [connectWorkers, workerObserveStop]

/-! ### C7 and C10: connect input validation -/

/-- C7: if the baud field text does not parse as an integer when Connect is
pressed, the status becomes `Invalid baud rate` and no `SerialReader` is
created or started (no connection attempt is made). -/
theorem c7_invalid_baud (g : GridApp) (h : pyInt (pyStrip g.baud_var) = none) :
    (GridApp.connect g).status_var = "Invalid baud rate"
    ∧ (GridApp.connect g).reader = none := by
  have hb : pyInt (pyStrip (GridApp.disconnect g).baud_var) = none := by
    rw [disconnect_baud_var]; exact h
  constructor
  · simp [GridApp.connect, hb]
  · simp [GridApp.connect, hb, disconnect_reader_none]

theorem c7_witness :
    pyInt (pyStrip appNotANumber.baud_var) = none
    ∧ (GridApp.connect appNotANumber).status_var = "Invalid baud rate"
    ∧ (GridApp.connect appNotANumber).reader = none := by
  have h : pyInt (pyStrip appNotANumber.baud_var) = none := by decide
  exact ⟨h, (c7_invalid_baud appNotANumber h).1, (c7_invalid_baud appNotANumber h).2⟩

/-- C10: Connect tears the previous reader down before validating input, so
when baud parsing (or the empty-port check) fails, the resulting state is
exactly the disconnected state with only the status text changed — the
teardown persists even though the connect attempt aborted. -/
theorem c10_teardown_persists (g : GridApp)
    (h : pyInt (pyStrip g.baud_var) = none ∨ pyStrip g.port_var = "") :
    GridApp.connect g
      = { GridApp.disconnect g with
          status_var := if pyInt (pyStrip g.baud_var) = none
                        then "Invalid baud rate" else "Select/enter a port" }
    ∧ (GridApp.connect g).reader = none := by
  by_cases hb : pyInt (pyStrip g.baud_var) = none
  · have hb2 : pyInt (pyStrip (GridApp.disconnect g).baud_var) = none := by
      rw [disconnect_baud_var]; exact hb
    constructor
    · simp [GridApp.connect, hb2, hb]
    · simp [GridApp.connect, hb2, disconnect_reader_none]
  · have hp : pyStrip g.port_var = "" := h.resolve_left hb
    cases hpy : pyInt (pyStrip g.baud_var) with
    | none => exact absurd hpy hb
    | some b =>
      have hb3 : pyInt (pyStrip (GridApp.disconnect g).baud_var) = some b := by
        rw [disconnect_baud_var]; exact hpy
      have hp2 : pyStrip (GridApp.disconnect g).port_var = "" := by
        rw [disconnect_port_var]; exact hp
      constructor
      · simp [GridApp.connect, hb3, hp2, hb]
      · simp [GridApp.connect, hb3, hp2, disconnect_reader_none]

theorem c10_witness :
    (pyInt (pyStrip appBaudAbcConnected.baud_var) = none
      ∨ pyStrip appBaudAbcConnected.port_var = "")
    ∧ appBaudAbcConnected.reader = some readerLive
    ∧ (GridApp.connect appBaudAbcConnected).reader = none := by
  have h : pyInt (pyStrip appBaudAbcConnected.baud_var) = none := by decide
  exact ⟨Or.inl h, by decide,
    (c10_teardown_persists appBaudAbcConnected (Or.inl h)).2⟩

/-! ### C2: write cursor arithmetic -/

theorem countValueMsgs_cons (m : Msg) (ms : List Msg) :
    countValueMsgs (m :: ms)
      = countValueMsgs ms + (if m.kind = "value" then 1 else 0) := by
  by_cases h : m.kind = "value" <;>
    simp [countValueMsgs, List.filter_cons, h, Nat.add_comm]

theorem process_queue_index_eq (msgs : List Msg) :
    ∀ g : GridApp, g.index < TOTAL_CELLS →
      (GridApp.process_queue g msgs).index
        = (g.index + countValueMsgs msgs) % TOTAL_CELLS := by
  induction msgs with
  | nil =>
    intro g h
    simp [GridApp.process_queue, countValueMsgs, Nat.mod_eq_of_lt h]
  | cons m ms ih =>
    intro g h
    have hcons : GridApp.process_queue g (m :: ms)
        = GridApp.process_queue (GridApp.handle_message g m) ms := rfl
    rw [hcons, countValueMsgs_cons]
    by_cases h3 : m.kind = "value"
    · have h1 : ¬ (m.kind = "__ERROR__") := by rw [h3]; decide
      have h2 : ¬ (m.kind = "__STATUS__") := by rw [h3]; decide
      have he : GridApp.handle_message g m
          = { GridApp.set_cell { g with last_value := m.payload } g.index m.payload with
              index := (g.index + 1) % TOTAL_CELLS } := by
        simp [GridApp.handle_message, h1, h2, h3, set_cell_index]
      rw [he]
      have hlt : (g.index + 1) % TOTAL_CELLS < TOTAL_CELLS :=
        Nat.mod_lt _ (by decide)
      rw [ih _ hlt]
      simp only [h3, if_pos]
      rw [Nat.mod_add_mod]
      have harith : g.index + 1 + countValueMsgs ms
          = g.index + (countValueMsgs ms + 1) := by omega
      rw [harith]
    · have hli := handle_message_nonvalue g m h3
      rw [ih _ (by rw [hli.2]; exact h), hli.2]
      simp [h3]

/-- C2 (amended): each consumed value message advances the write cursor by
exactly one modulo 200, regardless of the reading value, so across any
drained batch the cursor visits cell indices 0,1,...,199,0,1,... in strict
round-robin order; the cursor is a single integer index in [0, 200). -/
theorem c2_round_robin (g : GridApp) (msgs : List Msg)
    (h : g.index < TOTAL_CELLS) :
    (GridApp.process_queue g msgs).index
      = (g.index + countValueMsgs msgs) % TOTAL_CELLS
    ∧ (GridApp.process_queue g msgs).index < TOTAL_CELLS
    ∧ ∀ s : String,
        (GridApp.handle_message g (valueMsg s)).index = (g.index + 1) % TOTAL_CELLS := by
  refine ⟨process_queue_index_eq msgs g h, ?_, fun s => rfl⟩
  rw [process_queue_index_eq msgs g h]
  exact Nat.mod_lt _ (by decide)

theorem c2_witness :
    GridApp.initial.index < TOTAL_CELLS
    ∧ (GridApp.process_queue GridApp.initial [valueMsg "5"]).index
        = (GridApp.initial.index + countValueMsgs [valueMsg "5"]) % TOTAL_CELLS :=
  ⟨by decide, (c2_round_robin GridApp.initial [valueMsg "5"] (by decide)).1⟩

set_option maxRecDepth 4000 in
/-- C2 (counterexample): starting from the initial state, consuming 199
value messages leaves the write cursor at index 199, which the cursor does
visit — so the cursor is not confined to the half-open interval [0, 199). -/
theorem c2_counterexample :
    (GridApp.process_queue GridApp.initial msgs199).index = 199
    ∧ ¬ (GridApp.process_queue GridApp.initial msgs199).index < 199 := by
  have h : (GridApp.process_queue GridApp.initial msgs199).index
      = (GridApp.initial.index + countValueMsgs msgs199) % TOTAL_CELLS :=
    process_queue_index_eq msgs199 GridApp.initial (by decide)
  have hc : countValueMsgs msgs199 = 199 := by decide
  rw [h, hc]
  constructor <;> decide

/-! ### Read-loop lemmas for C5 and C6 -/

theorem run_loop_err (tm : Bool) (good : List ReadResult) (e : String)
    (rest : List ReadResult) (hg : ∀ r ∈ good, isSerialErr r = false) :
    run_loop tm (good ++ ReadResult.serialErr e :: rest)
      = loopValueMsgs tm good
        ++ [errorMsg ("Read error: " ++ e), statusMsg "Disconnected"] := by
  induction good with
  | nil => simp [run_loop, loopValueMsgs]
  | cons r rs ih =>
    have hrs : ∀ x ∈ rs, isSerialErr x = false :=
      fun x hx => hg x (List.mem_cons_of_mem _ hx)
    have ih2 := ih hrs
    cases r with
    | serialErr e2 =>
      have := hg _ (List.mem_cons_self _ _)
      simp [isSerialErr] at this
    | otherExc =>
      simpa [run_loop, loopValueMsgs] using ih2
    | bytes bs =>
      cases tm with
      | true =>
        by_cases hbs : bs = []
        · simpa [run_loop, loopValueMsgs, hbs] using ih2
        · by_cases hs : String.mk (pyStripList (decodeAsciiIgnore bs)) = ""
          · simpa [run_loop, loopValueMsgs, hbs, hs] using ih2
          · simp [run_loop, loopValueMsgs, hbs, hs, ih2]
      | false =>
        cases bs with
        | nil => simpa [run_loop, loopValueMsgs] using ih2
        | cons b bs2 => simp [run_loop, loopValueMsgs, ih2]

theorem loopValueMsgs_kind (tm : Bool) (reads : List ReadResult) :
    ∀ m ∈ loopValueMsgs tm reads, m.kind = "value" := by
  induction reads with
  | nil => intro m hm; simp [loopValueMsgs] at hm
  | cons r rs ih =>
    intro m hm
    cases r with
    | serialErr e => simp [loopValueMsgs] at hm
    | otherExc =>
      rw [show loopValueMsgs tm (ReadResult.otherExc :: rs) = loopValueMsgs tm rs from rfl] at hm
      exact ih m hm
    | bytes bs =>
      cases tm with
      | true =>
        by_cases hbs : bs = []
        · simp only [loopValueMsgs, hbs, if_pos rfl, if_true] at hm
          exact ih m hm
        · by_cases hs : String.mk (pyStripList (decodeAsciiIgnore bs)) = ""
          · simp only [loopValueMsgs, if_true, hbs, if_neg hbs, hs, if_pos rfl] at hm
            exact ih m hm
          · simp only [loopValueMsgs, if_true, if_neg hbs, if_neg hs, List.mem_cons] at hm
            rcases hm with hm | hm
            · subst hm; rfl
            · exact ih m hm
      | false =>
        cases bs with
        | nil =>
          rw [show loopValueMsgs false (ReadResult.bytes [] :: rs) = loopValueMsgs false rs from rfl] at hm
          exact ih m hm
        | cons b bs2 =>
          rw [show loopValueMsgs false (ReadResult.bytes (b :: bs2) :: rs)
                = valueMsg (toString b) :: loopValueMsgs false rs from rfl,
              List.mem_cons] at hm
          rcases hm with hm | hm
          · subst hm; rfl
          · exact ih m hm

theorem run_loop_ends (tm : Bool) (reads : List ReadResult) :
    ∃ ms : List Msg, run_loop tm reads = ms ++ [statusMsg "Disconnected"] := by
  induction reads with
  | nil => exact ⟨[], rfl⟩
  | cons r rs ih =>
    obtain ⟨ms, hms⟩ := ih
    cases r with
    | serialErr e => exact ⟨[errorMsg ("Read error: " ++ e)], rfl⟩
    | otherExc => exact ⟨ms, by simpa [run_loop] using hms⟩
    | bytes bs =>
      cases tm with
      | true =>
        by_cases hbs : bs = []
        · exact ⟨ms, by simpa [run_loop, hbs] using hms⟩
        · by_cases hs : String.mk (pyStripList (decodeAsciiIgnore bs)) = ""
          · exact ⟨ms, by simpa [run_loop, hbs, hs] using hms⟩
          · exact ⟨valueMsg (String.mk (pyStripList (decodeAsciiIgnore bs))) :: ms,
              by simp [run_loop, hbs, hs, hms]⟩
      | false =>
        cases bs with
        | nil => exact ⟨ms, by simpa [run_loop] using hms⟩
        | cons b bs2 => exact ⟨valueMsg (toString b) :: ms, by simp [run_loop, hms]⟩

theorem process_queue_append (g : GridApp) (l1 l2 : List Msg) :
    GridApp.process_queue g (l1 ++ l2)
      = GridApp.process_queue (GridApp.process_queue g l1) l2 := by
  simp [GridApp.process_queue, List.foldl_append]

theorem handle_message_congr (g g2 : GridApp) (m : Msg)
    (hl : g.labels = g2.labels) (hi : g.index = g2.index) :
    (GridApp.handle_message g m).labels = (GridApp.handle_message g2 m).labels
    ∧ (GridApp.handle_message g m).index = (GridApp.handle_message g2 m).index := by
  unfold GridApp.handle_message
  split_ifs <;> constructor <;> simp [GridApp.set_cell, hl, hi]

theorem process_queue_congr (msgs : List Msg) :
    ∀ g g2 : GridApp, g.labels = g2.labels → g.index = g2.index →
      (GridApp.process_queue g msgs).labels = (GridApp.process_queue g2 msgs).labels
      ∧ (GridApp.process_queue g msgs).index = (GridApp.process_queue g2 msgs).index := by
  induction msgs with
  | nil => exact fun g g2 hl hi => ⟨hl, hi⟩
  | cons m ms ih =>
    intro g g2 hl hi
    have h := handle_message_congr g g2 m hl hi
    exact ih _ _ h.1 h.2

theorem process_queue_nonvalue (msgs : List Msg) :
    ∀ g : GridApp, (∀ m ∈ msgs, m.kind ≠ "value") →
      (GridApp.process_queue g msgs).labels = g.labels
      ∧ (GridApp.process_queue g msgs).index = g.index := by
  induction msgs with
  | nil => exact fun g _ => ⟨rfl, rfl⟩
  | cons m ms ih =>
    intro g hm
    have h1 := handle_message_nonvalue g m (hm m (List.mem_cons_self _ _))
    have h2 := ih (GridApp.handle_message g m)
      (fun x hx => hm x (List.mem_cons_of_mem _ hx))
    exact ⟨h2.1.trans h1.1, h2.2.trans h1.2⟩

theorem errorMsg_kind (s : String) : (errorMsg s).kind = "__ERROR__" := rfl

theorem statusMsg_kind (s : String) : (statusMsg s).kind = "__STATUS__" := rfl

theorem errorMsg_not_value (s : String) : (errorMsg s).kind ≠ "value" := by
  rw [errorMsg_kind]; decide

theorem statusMsg_not_value (s : String) : (statusMsg s).kind ≠ "value" := by
  rw [statusMsg_kind]; decide

/-! ### C5: read error during operation -/

/-- C5: when a `SerialException` occurs during the read loop after an
error-free prefix of reads, the worker enqueues the readings followed by a
`Read error` message (and the epilogue's `Disconnected` status), ignores
every later scheduled read, and closes the port.  Draining those messages
first reflects the readings in the grid, then sets the status to the error
text; neither the grid nor the write cursor changes after the readings —
no further cells update until the user reconnects. -/
theorem c5_read_error_pipeline (rd : SerialReader) (good rest : List ReadResult)
    (e : String) (g : GridApp)
    (hg : ∀ r ∈ good, isSerialErr r = false) :
    (SerialReader.run rd none (good ++ ReadResult.serialErr e :: rest)).msgs
      = statusMsg (connectedText rd)
        :: (loopValueMsgs rd.text_mode good
            ++ [errorMsg ("Read error: " ++ e), statusMsg "Disconnected"])
    ∧ (SerialReader.run rd none (good ++ ReadResult.serialErr e :: rest)).ser = some false
    ∧ (GridApp.process_queue g
         (loopValueMsgs rd.text_mode good ++ [errorMsg ("Read error: " ++ e)])).status_var
        = "Error: " ++ ("Read error: " ++ e)
    ∧ (GridApp.process_queue g
         (loopValueMsgs rd.text_mode good ++ [errorMsg ("Read error: " ++ e)])).labels
        = (GridApp.process_queue g (loopValueMsgs rd.text_mode good)).labels
    ∧ (GridApp.process_queue g
         ((SerialReader.run rd none (good ++ ReadResult.serialErr e :: rest)).msgs)).labels
        = (GridApp.process_queue g (loopValueMsgs rd.text_mode good)).labels
    ∧ (GridApp.process_queue g
         ((SerialReader.run rd none (good ++ ReadResult.serialErr e :: rest)).msgs)).index
        = (GridApp.process_queue g (loopValueMsgs rd.text_mode good)).index := by
  have hrl := run_loop_err rd.text_mode good e rest hg
  have hmsgs : (SerialReader.run rd none (good ++ ReadResult.serialErr e :: rest)).msgs
      = statusMsg (connectedText rd)
        :: (loopValueMsgs rd.text_mode good
            ++ [errorMsg ("Read error: " ++ e), statusMsg "Disconnected"]) := by
    simp [SerialReader.run, hrl]
  have htail : ∀ m ∈ [errorMsg ("Read error: " ++ e), statusMsg "Disconnected"],
      m.kind ≠ "value" := by
    intro m hm
    rcases List.mem_cons.mp hm with h | h
    · subst h; exact errorMsg_not_value _
    · rcases List.mem_cons.mp h with h2 | h2
      · subst h2; exact statusMsg_not_value _
      · simp at h2
  have hstat : GridApp.handle_message g (statusMsg (connectedText rd))
      = { g with status_var := connectedText rd } := handle_message_status g _
  have h0 := handle_message_nonvalue g (statusMsg (connectedText rd))
    (statusMsg_not_value _)
  refine ⟨hmsgs, rfl, ?_, ?_, ?_, ?_⟩
  · rw [process_queue_append]
    exact congrArg GridApp.status_var
      (handle_message_error (GridApp.process_queue g (loopValueMsgs rd.text_mode good))
        ("Read error: " ++ e)) |>.trans rfl
  · rw [process_queue_append]
    exact (handle_message_nonvalue _ _ (errorMsg_not_value _)).1
  · rw [hmsgs]
    have hstep : GridApp.process_queue g
        (statusMsg (connectedText rd)
          :: (loopValueMsgs rd.text_mode good
              ++ [errorMsg ("Read error: " ++ e), statusMsg "Disconnected"]))
        = GridApp.process_queue (GridApp.handle_message g (statusMsg (connectedText rd)))
            (loopValueMsgs rd.text_mode good
              ++ [errorMsg ("Read error: " ++ e), statusMsg "Disconnected"]) := rfl
    rw [hstep, process_queue_append]
    have h2 := process_queue_nonvalue
      [errorMsg ("Read error: " ++ e), statusMsg "Disconnected"]
      (GridApp.process_queue (GridApp.handle_message g (statusMsg (connectedText rd)))
        (loopValueMsgs rd.text_mode good)) htail
    rw [h2.1]
    exact (process_queue_congr (loopValueMsgs rd.text_mode good) _ _ h0.1 h0.2).1
  · rw [hmsgs]
    have hstep : GridApp.process_queue g
        (statusMsg (connectedText rd)
          :: (loopValueMsgs rd.text_mode good
              ++ [errorMsg ("Read error: " ++ e), statusMsg "Disconnected"]))
        = GridApp.process_queue (GridApp.handle_message g (statusMsg (connectedText rd)))
            (loopValueMsgs rd.text_mode good
              ++ [errorMsg ("Read error: " ++ e), statusMsg "Disconnected"]) := rfl
    rw [hstep, process_queue_append]
    have h2 := process_queue_nonvalue
      [errorMsg ("Read error: " ++ e), statusMsg "Disconnected"]
      (GridApp.process_queue (GridApp.handle_message g (statusMsg (connectedText rd)))
        (loopValueMsgs rd.text_mode good)) htail
    rw [h2.2]
    exact (process_queue_congr (loopValueMsgs rd.text_mode good) _ _ h0.1 h0.2).2

theorem c5_witness :
    (∀ r ∈ goodReads, isSerialErr r = false)
    ∧ (SerialReader.run readerLive none
        (goodReads ++ ReadResult.serialErr "boom" :: [ReadResult.bytes [7]])).msgs
      = statusMsg (connectedText readerLive)
        :: (loopValueMsgs readerLive.text_mode goodReads
            ++ [errorMsg ("Read error: " ++ "boom"), statusMsg "Disconnected"]) := by
  have hg : ∀ r ∈ goodReads, isSerialErr r = false := by decide
  exact ⟨hg, (c5_read_error_pipeline readerLive goodReads [ReadResult.bytes [7]]
    "boom" GridApp.initial hg).1⟩

/-! ### C6: stop idempotence and eventual disconnection -/

/-- C6 (amended): `stop` is idempotent and safe to call any number of times,
including before `start` has produced effects, and it enqueues nothing
itself; once the reader has entered its loop (open succeeded), a
`Disconnected` status message is always eventually enqueued as the final
message, whether the loop exits by observing the stop signal or by a read
error.  A reader that never runs produces no disconnection message. -/
theorem c6_stop_idempotent_eventual_disconnect :
    (∀ r : SerialReader, SerialReader.stop (SerialReader.stop r).1 = SerialReader.stop r)
    ∧ (∀ r : SerialReader, (SerialReader.stop r).2 = [])
    ∧ (∀ (r : SerialReader) (reads : List ReadResult), ∃ ms : List Msg,
        (SerialReader.run r none reads).msgs
          = statusMsg (connectedText r) :: ms ++ [statusMsg "Disconnected"]) := by
  refine ⟨?_, fun r => rfl, ?_⟩
  · intro r
    obtain ⟨p, b, t, f, s⟩ := r
    cases s <;> rfl
  · intro r reads
    obtain ⟨ms, hms⟩ := run_loop_ends r.text_mode reads
    exact ⟨ms, by simp [SerialReader.run, hms]⟩

/-- C6 (counterexample): `stop` invoked on a fresh, never-started reader
(the reader is not running) enqueues no message at all — in particular no
status message announcing disconnection results immediately, contradicting
the claim's clause for a non-running reader. -/
theorem c6_counterexample :
    readerFresh.stopFlag = false
    ∧ readerFresh.ser = none
    ∧ (SerialReader.stop readerFresh).2 = [] := by
  exact ⟨rfl, rfl, rfl⟩

theorem c4_witness :
    GridApp.disconnect (GridApp.disconnect GridApp.initial)
      = GridApp.disconnect GridApp.initial
    ∧ (GridApp.disconnect GridApp.initial).reader = none :=
  ⟨(c4_disconnect_idempotent GridApp.initial).1,
   (c4_disconnect_idempotent GridApp.initial).2.1⟩

theorem c8_witness :
    SerialReader.run readerFresh (some "could not open port") [ReadResult.bytes [5]]
      = { msgs := [errorMsg ("Open failed: " ++ "could not open port")], ser := none } :=
  (c8_open_failure readerFresh "could not open port" [ReadResult.bytes [5]]).1
